import Mathlib

/-!
Verification of the Liquidsoap native shim `src/tools/unix_c.c`
(Host Time & Locale Utility).

The C file wraps POSIX facilities: `setlocale`/`setenv` (locale pinning),
`tzset`/`timezone`/`tzname` (timezone information) and `mktime`
(local-calendar-to-epoch conversion).  Each wrapper is embedded below as a
Lean function; the POSIX facilities themselves, which are external to the
repository, are modelled explicitly (state records for the process
environment and timezone globals, and a civil-calendar model of `mktime`
on fixed-offset hosts, faithful to the POSIX specification of those
facilities).
-/

namespace UnixC

/-! ## Broken-down time and the OCaml-side input record

`liquidsoap_mktime` receives an OCaml record with fields
`(sec, min, hour, mday, mon, year, isdst)` where `isdst : bool option`
(`None` = unspecified, `Some false` = standard time, `Some true` =
daylight time), and fills a C `struct tm` from it. -/

/-- The C `struct tm` fields that `liquidsoap_mktime` fills before calling
`mktime`. -/
structure Tm where
  tm_sec : Int
  tm_min : Int
  tm_hour : Int
  tm_mday : Int
  tm_mon : Int
  tm_year : Int
  tm_wday : Int
  tm_yday : Int
  tm_isdst : Int
  deriving DecidableEq, Repr

/-- The OCaml-side input record of `liquidsoap_mktime` (the spec's
`LocalTimeSpec`).  `isdst = none` is the spec's `Unspecified`,
`some false` is `StandardTime`, `some true` is `DaylightTime`. -/
structure LocalTimeSpec where
  sec : Int
  min : Int
  hour : Int
  mday : Int
  mon : Int
  year : Int
  isdst : Option Bool
  deriving DecidableEq, Repr

/-- Embedding of the C expression
`Field(_tm, 6) == Val_int(0) ? -1 : Bool_val(Field(Field(_tm, 6), 0))`:
the `option bool` DST flag marshalled to the `tm_isdst` integer. -/
def dstToInt : Option Bool → Int
  | none => -1
  | some b => if b then 1 else 0

/-- The `struct tm` that `liquidsoap_mktime` hands to the platform
`mktime`: the six calendar fields copied from the input record,
`tm_wday = tm_yday = 0`, and `tm_isdst` from `dstToInt`
(lines 58-66 of `unix_c.c`). -/
def mkTm (s : LocalTimeSpec) : Tm :=
  { tm_sec := s.sec
    tm_min := s.min
    tm_hour := s.hour
    tm_mday := s.mday
    tm_mon := s.mon
    tm_year := s.year
    tm_wday := 0
    tm_yday := 0
    tm_isdst := dstToInt s.isdst }

/-! ## The error channel

`unix_error(ERANGE, "mktime", Nothing)` raises the OCaml exception
`Unix_error` carrying the error code, the function name, and the string
argument, where `Nothing` marshals to the empty string. -/

/-- POSIX error codes used by the shim. -/
inductive UnixErrorCode
  | ERANGE
  deriving DecidableEq, Repr

/-- The payload of the OCaml `Unix_error` exception: error code, name of
the failing function, string argument (empty when the C side passes
`Nothing`). -/
structure UnixError where
  code : UnixErrorCode
  fn : String
  arg : String
  deriving DecidableEq, Repr

/-! ## Model of the C double cast

The successful result is `caml_copy_double((double)time)`.  The cast of
the integer `time_t` to IEEE-754 binary64 is exact when the magnitude is
at most `2^53` and otherwise rounds to the nearest representable value
(ties to even); the value of the resulting double is modelled as a
rational number. -/

/-- Round `n / 2^k` to the nearest integer, ties to even: the IEEE-754
round-to-nearest-even rule for discarding `k` low bits. -/
def rne2 (n : Int) (k : Nat) : Int :=
  let q := Int.fdiv n (2 ^ k)
  let r := n - q * 2 ^ k
  if 2 * r < 2 ^ k then q
  else if 2 ^ k < 2 * r then q + 1
  else if q % 2 = 0 then q else q + 1

/-- Value of the C cast `(double)n` for an integer `n` (64-bit `time_t`):
exact below `2^53`, otherwise rounded to the nearest multiple of the
appropriate power of two (round-to-nearest-even). -/
def doubleOfInt (n : Int) : ℚ :=
  if n.natAbs ≤ 2 ^ 53 then (n : ℚ)
  else
    let k := n.natAbs.log2 - 52
    ((rne2 n k : Int) : ℚ) * (2 : ℚ) ^ k

/-! ## The mktime wrapper

`liquidsoap_mktime` fills the `struct tm`, calls the platform `mktime`,
raises `Unix_error (ERANGE, "mktime", "")` when the call returns the
sentinel `(time_t)(-1)`, and otherwise returns the cast to double.  The
platform conversion is a parameter `mk : Tm → Int` (concrete models of it
for fixed-offset hosts follow below). -/

/-- Embedding of `liquidsoap_mktime` (lines 53-71 of `unix_c.c`),
parametric in the platform conversion facility `mk`. -/
def liquidsoap_mktime (mk : Tm → Int) (s : LocalTimeSpec) :
    Except UnixError ℚ :=
  let time := mk (mkTm s)
  if time = -1 then
    .error { code := .ERANGE, fn := "mktime", arg := "" }
  else
    .ok (doubleOfInt time)

/-! ## Model of the platform `mktime` on fixed-offset hosts

POSIX defines `mktime` as interpreting the broken-down fields as local
time, normalizing out-of-range fields by standard calendar arithmetic,
and returning seconds since the epoch.  On a host configured as UTC this
is the POSIX `timegm` formula; we use the standard civil-calendar
day-count (proleptic Gregorian, epoch day 1970-01-01), with out-of-range
months folded into the year and the remaining fields absorbed linearly
by the day/second arithmetic — exactly the normalization POSIX
prescribes. -/

/-- Number of days from 1970-01-01 to the first day of month `m`
(1-based) of civil year `y`, minus one day (so that adding the 1-based
day-of-month gives the day count).  Standard civil-from-days arithmetic:
years shifted to start in March, 400-year eras of 146097 days. -/
def civilDaysToMonthStart (y m : Int) : Int :=
  let yAdj := if m ≤ 2 then y - 1 else y
  let era := Int.fdiv yAdj 400
  let yoe := yAdj - era * 400
  let mp := Int.emod (m + 9) 12
  era * 146097 + yoe * 365 + Int.fdiv yoe 4 - Int.fdiv yoe 100
    + Int.fdiv (153 * mp + 2) 5 - 719468

/-- Number of days from 1970-01-01 to day `d` (1-based, possibly out of
range) of month `m` (1-based) of civil year `y`. -/
def daysFromCivil (y m d : Int) : Int :=
  civilDaysToMonthStart y m + (d - 1)

/-- Model of the platform `mktime` on a host configured as UTC: fold an
out-of-range month into the year, count civil days, and add the
hour/minute/second fields as seconds.  Out-of-range day, hour, minute and
second fields roll over into adjacent fields by this arithmetic, per the
POSIX normalization requirement.  (UTC has no DST, so `tm_isdst ∈ {-1,0}`
inputs convert directly; the model extends this to all flag values.) -/
def mktimeUTC (t : Tm) : Int :=
  let y := t.tm_year + 1900 + Int.fdiv t.tm_mon 12
  let m := Int.emod t.tm_mon 12 + 1
  daysFromCivil y m t.tm_mday * 86400
    + t.tm_hour * 3600 + t.tm_min * 60 + t.tm_sec

/-- Model of the platform `mktime` on a host configured at a fixed
standard offset with no DST: local time is UTC minus `tz` seconds, where
`tz` is the POSIX `timezone` value (seconds west of Greenwich), so the
epoch value is the UTC conversion plus `tz`. -/
def mktimeStd (tz : Int) (t : Tm) : Int :=
  mktimeUTC t + tz

/-! ## Timezone globals, `tzset`, and the two timezone readers

The C globals `timezone` and `tzname` are set by `tzset` from the system
configuration.  The process state carries both the configured values
(what `tzset` loads) and the current live globals (possibly stale). -/

/-- The timezone information exposed through the C globals after `tzset`:
`timezone` (seconds west of Greenwich, standard offset) and the two
`tzname` abbreviation strings (standard, daylight). -/
structure TZConfig where
  timezone : Int
  tznameStd : String
  tznameDst : String
  deriving DecidableEq, Repr

/-- Process-wide timezone state: the system configuration that `tzset`
loads, and the current values of the live C globals. -/
structure TZState where
  config : TZConfig
  current : TZConfig
  deriving DecidableEq, Repr

/-- Model of `tzset`: refresh the live globals from the system
configuration. -/
def tzset (st : TZState) : TZState :=
  { st with current := st.config }

/-- Embedding of `liquidsoap_get_timezone` (lines 38-41 of `unix_c.c`):
`tzset()` then return the `timezone` global. -/
def liquidsoap_get_timezone (st : TZState) : TZState × Int :=
  let st1 := tzset st
  (st1, st1.current.timezone)

/-- Embedding of `liquidsoap_get_timezone_by_name` (lines 43-51 of
`unix_c.c`): `tzset()`, then return the pair of copies of `tzname[0]`
and `tzname[1]`. -/
def liquidsoap_get_timezone_by_name (st : TZState) :
    TZState × (String × String) :=
  let st1 := tzset st
  (st1, (st1.current.tznameStd, st1.current.tznameDst))

/-- Modelled from the spec: the system configuration of a host running at
a fixed offset `east` seconds east of UTC.  The POSIX `timezone`
variable holds seconds west of Greenwich, so it equals `-east`
(west-of-UTC-positive sign convention). -/
def hostConfig (east : Int) (std dst : String) : TZConfig :=
  { timezone := -east, tznameStd := std, tznameDst := dst }

/-! ## Locale pinning

`liquidsoap_set_locale` calls `setenv("LANG","C",1)`,
`setenv("LC_ALL","C",1)` and `setlocale(LC_ALL, "C")`, ignoring the
return value of `setlocale`, and returns unit. -/

/-- The six standard locale categories covered by `LC_ALL`. -/
inductive LocaleCategory
  | collate
  | ctype
  | messages
  | monetary
  | numeric
  | time
  deriving DecidableEq, Repr

/-- Process-wide state touched by `liquidsoap_set_locale`: the
environment (as a lookup function) and the active locale of each
category. -/
structure ProcLocaleState where
  getenv : String → Option String
  locale : LocaleCategory → String

/-- Model of `setenv(name, v, 1)`: overwrite or add the binding. -/
def setenvM (st : ProcLocaleState) (name v : String) : ProcLocaleState :=
  { st with getenv := fun n => if n = name then some v else st.getenv n }

/-- Model of `setlocale(LC_ALL, l)`: when the platform call succeeds
(`ok = true`, the non-NULL return) every category's active locale
becomes `l`; when it fails (NULL return) the locale state is
unchanged.  The return value itself is what the C caller discards. -/
def setlocaleAllM (ok : Bool) (st : ProcLocaleState) (l : String) :
    ProcLocaleState :=
  if ok then { st with locale := fun _ => l } else st

/-- Embedding of `liquidsoap_set_locale` (lines 22-36 of `unix_c.c`),
parametric in whether the platform `setlocale` call succeeds (its return
value is ignored either way). -/
def liquidsoap_set_locale (ok : Bool) (st : ProcLocaleState) :
    ProcLocaleState × Unit :=
  let st1 := setenvM st "LANG" "C"
  let st2 := setenvM st1 "LC_ALL" "C"
  let st3 := setlocaleAllM ok st2 "C"
  (st3, ())

/-! ## Spec-side definitions

Definitions written from the specification's words, to be compared with
the source embeddings above. -/

/-- Spec-side DST resolution: `Unspecified` (`none`) lets the platform
disambiguate (`tm_isdst = -1`); `StandardTime` (`some false`) forces 0;
`DaylightTime` (`some true`) forces 1. -/
def specResolveDst : Option Bool → Int
  | none => -1
  | some false => 0
  | some true => 1

/-- The `LocalTimeSpec` of the epoch instant in the years-since-1900
convention: 1970-01-01 00:00:00, `StandardTime`. -/
def epochSpec : LocalTimeSpec :=
  { sec := 0, min := 0, hour := 0, mday := 1, mon := 0, year := 70
    isdst := some false }

/-- The `LocalTimeSpec` of 1969-12-31 23:59:59 (one second before the
epoch), `StandardTime`: on a UTC host its absolute time is exactly
`(time_t)(-1)`. -/
def preEpochSpec : LocalTimeSpec :=
  { sec := 59, min := 59, hour := 23, mday := 31, mon := 11, year := 69
    isdst := some false }

/-- A non-normalized `LocalTimeSpec` (second field `-1` of the epoch
instant) whose normalized local time is also one second before the
epoch. -/
def preEpochSpecRaw : LocalTimeSpec :=
  { sec := -1, min := 0, hour := 0, mday := 1, mon := 0, year := 70
    isdst := some false }

end UnixC

instance {ε α : Type} [DecidableEq ε] [DecidableEq α] :
    DecidableEq (Except ε α)
  | .error e, .error f =>
    if h : e = f then .isTrue (by rw [h])
    else .isFalse (by intro hh; injection hh; exact h (by assumption))
  | .error _, .ok _ => .isFalse (by intro h; exact Except.noConfusion h)
  | .ok _, .error _ => .isFalse (by intro h; exact Except.noConfusion h)
  | .ok a, .ok b =>
    if h : a = b then .isTrue (by rw [h])
    else .isFalse (by intro hh; injection hh; exact h (by assumption))

namespace UnixC

/-- The `LocalTimeSpec` of 2000-01-01 00:00:00 `StandardTime` (year field
100 in the years-since-1900 convention); its epoch value on a UTC host is
946684800. -/
def spec2000 : LocalTimeSpec :=
  { sec := 0, min := 0, hour := 0, mday := 1, mon := 0, year := 100
    isdst := some false }

/-- The value of the C cast `(double)n` is always an integral number:
exact below `2^53`, and above that a multiple of a positive power of
two. -/
theorem doubleOfInt_den (n : Int) : (doubleOfInt n).den = 1 := by
  unfold doubleOfInt
  split
  · exact Rat.den_intCast n
  · have h : ((rne2 n (n.natAbs.log2 - 52) : Int) : ℚ) *
        (2 : ℚ) ^ (n.natAbs.log2 - 52) =
        ((rne2 n (n.natAbs.log2 - 52) * 2 ^ (n.natAbs.log2 - 52) : Int) : ℚ) := by
      push_cast
      ring
    rw [h]
    exact Rat.den_intCast _

/-- Claim C1, counterexample: the claim says `to_epoch_seconds` succeeds
on every `LocalTimeSpec` whose normalized local time corresponds to a
valid absolute time.  On a UTC host the local time 1969-12-31 23:59:59
(`preEpochSpec`) corresponds to the valid absolute time `-1` (one second
before the epoch, as computed by the total civil-calendar conversion),
yet because `-1` is also `mktime`'s error sentinel, `liquidsoap_mktime`
raises `Unix_error (ERANGE, "mktime", "")` on it instead of
succeeding. -/
theorem mktime_rejects_valid_pre_epoch_instant :
    mktimeUTC (mkTm preEpochSpec) = -1 ∧
    liquidsoap_mktime mktimeUTC preEpochSpec =
      .error { code := .ERANGE, fn := "mktime", arg := "" } := by decide

/-- Claim C1, amended: `liquidsoap_mktime` fails with `RangeError` if and
only if the platform conversion returns the sentinel `(time_t)(-1)` —
which happens when no valid absolute time exists, but also when the valid
absolute time is exactly `-1`; for every `LocalTimeSpec` whose conversion
yields any value other than `-1`, the operation succeeds and returns that
value (cast to double). -/
theorem mktime_error_iff_sentinel (mk : Tm → Int) (s : LocalTimeSpec) :
    ((∃ e, liquidsoap_mktime mk s = .error e) ↔ mk (mkTm s) = -1) ∧
    (mk (mkTm s) ≠ -1 →
      liquidsoap_mktime mk s = .ok (doubleOfInt (mk (mkTm s)))) := by
  by_cases h : mk (mkTm s) = -1 <;>
    simp [liquidsoap_mktime, h]

/-- Claim C1, witness: the amended theorem applied on a UTC host to
2000-01-01 00:00:00, whose conversion value 946684800 is not the
sentinel, so the call succeeds. -/
theorem mktime_error_iff_sentinel_witness :
    liquidsoap_mktime mktimeUTC spec2000 =
      .ok (doubleOfInt (mktimeUTC (mkTm spec2000))) :=
  (mktime_error_iff_sentinel mktimeUTC spec2000).2 (by decide)

/-- Claim C2, counterexample: the claim says the raised error carries the
original input fields.  Two distinct failing inputs — 1969-12-31 23:59:59
and its non-normalized variant with second field `-1` of 1970-01-01 —
produce identical error values `(ERANGE, "mktime", "")`, so the error
cannot carry (or even determine) the input fields. -/
theorem mktime_error_payload_constant :
    preEpochSpec ≠ preEpochSpecRaw ∧
    liquidsoap_mktime mktimeUTC preEpochSpec =
      .error { code := .ERANGE, fn := "mktime", arg := "" } ∧
    liquidsoap_mktime mktimeUTC preEpochSpecRaw =
      .error { code := .ERANGE, fn := "mktime", arg := "" } := by decide

/-- Claim C2, amended: on every failing input the raised error carries
exactly the error code `ERANGE`, the function name `"mktime"` and an
empty argument string — a constant payload containing none of the
original input fields. -/
theorem mktime_error_payload (mk : Tm → Int) (s : LocalTimeSpec)
    (e : UnixError) (h : liquidsoap_mktime mk s = .error e) :
    e = { code := .ERANGE, fn := "mktime", arg := "" } := by
  unfold liquidsoap_mktime at h
  by_cases hc : mk (mkTm s) = -1
  · simp only [hc, if_true] at h
    injection h with h
    exact h.symm
  · simp [hc] at h

/-- Claim C2, witness: the amended theorem applied on a UTC host to the
failing input `preEpochSpecRaw`. -/
theorem mktime_error_payload_witness :
    ({ code := .ERANGE, fn := "mktime", arg := "" } : UnixError) =
      { code := .ERANGE, fn := "mktime", arg := "" } :=
  mktime_error_payload mktimeUTC preEpochSpecRaw
    { code := .ERANGE, fn := "mktime", arg := "" } (by decide)

/-- Claim C3: the `struct tm` that `liquidsoap_mktime` passes to the
platform conversion carries the six calendar fields of the input
unchanged, zeroes for `tm_wday`/`tm_yday`, and the DST flag resolved per
the spec: `Unspecified` (`none`) to `-1` (let the platform
disambiguate), `StandardTime` (`some false`) to `0`, `DaylightTime`
(`some true`) to `1`. -/
theorem mktime_marshals_fields_and_dst (s : LocalTimeSpec) :
    mkTm s =
      { tm_sec := s.sec, tm_min := s.min, tm_hour := s.hour,
        tm_mday := s.mday, tm_mon := s.mon, tm_year := s.year,
        tm_wday := 0, tm_yday := 0, tm_isdst := specResolveDst s.isdst } := by
  cases h : s.isdst with
  | none => simp [mkTm, dstToInt, specResolveDst, h]
  | some b => cases b <;> simp [mkTm, dstToInt, specResolveDst, h]

/-- Claim C4: `liquidsoap_get_timezone` first refreshes the timezone
globals with `tzset` and then returns the refreshed `timezone` value,
the standard offset in seconds with the west-of-UTC-positive sign
convention; on a host configured as UTC+2 it returns `-7200`.  It is a
total function on the state model: no failure path. -/
theorem get_timezone_refreshes_and_west_positive (st : TZState) :
    (liquidsoap_get_timezone st).1 = tzset st ∧
    (liquidsoap_get_timezone st).2 = st.config.timezone ∧
    ∀ std dst cur,
      (liquidsoap_get_timezone ⟨hostConfig 7200 std dst, cur⟩).2 = -7200 :=
  ⟨rfl, rfl, fun _ _ _ => rfl⟩

/-- Claim C5: `liquidsoap_set_locale` sets both environment variables
`LANG` and `LC_ALL` to `"C"` (whether or not the platform `setlocale`
call succeeds), and the single `setlocale(LC_ALL, "C")` call applies
`"C"` to every locale category immediately. -/
theorem set_locale_pins_env_and_categories (st : ProcLocaleState) :
    (∀ ok, (liquidsoap_set_locale ok st).1.getenv "LANG" = some "C" ∧
           (liquidsoap_set_locale ok st).1.getenv "LC_ALL" = some "C") ∧
    ∀ c, (liquidsoap_set_locale true st).1.locale c = "C" := by
  constructor
  · intro ok
    cases ok <;>
      simp [liquidsoap_set_locale, setenvM, setlocaleAllM]
  · intro c
    simp [liquidsoap_set_locale, setenvM, setlocaleAllM]

/-- Claim C6: `liquidsoap_mktime` relies on the platform conversion to
normalize out-of-range fields by rolling them into adjacent fields: on
every fixed-offset host and every `LocalTimeSpec`, the call with
hour = 25 and minute = 30 returns the same result as the call with the
already-normalized fields (the next day at hour 1, minute 30). -/
theorem mktime_normalizes_hour_overflow (tz : Int) (s : LocalTimeSpec) :
    liquidsoap_mktime (mktimeStd tz) { s with hour := 25, min := 30 } =
      liquidsoap_mktime (mktimeStd tz)
        { s with hour := 1, min := 30, mday := s.mday + 1 } := by
  have h : mktimeStd tz (mkTm { s with hour := 25, min := 30 }) =
      mktimeStd tz (mkTm { s with hour := 1, min := 30, mday := s.mday + 1 }) := by
    simp only [mktimeStd, mktimeUTC, mkTm, daysFromCivil]
    ring
  simp only [liquidsoap_mktime, h]

/-- Claim C7: on a UTC-configured host, `liquidsoap_mktime` applied to
the `LocalTimeSpec` of the epoch instant (year 70 in the
years-since-1900 convention, month 0, day 1, 00:00:00, `StandardTime`)
succeeds and returns exactly 0. -/
theorem mktime_epoch_utc_zero :
    liquidsoap_mktime mktimeUTC epochSpec = .ok 0 := by decide

/-- Claim C8: `liquidsoap_get_timezone_by_name` first refreshes the
timezone globals with `tzset` and then returns the ordered pair of the
refreshed `tzname` strings (standard, daylight), whatever they are —
including empty strings.  It is a total function on the state model: no
failure path. -/
theorem get_timezone_by_name_refreshes_and_returns_pair (st : TZState) :
    (liquidsoap_get_timezone_by_name st).1 = tzset st ∧
    (liquidsoap_get_timezone_by_name st).2 =
      (st.config.tznameStd, st.config.tznameDst) :=
  ⟨rfl, rfl⟩

/-- Claim C9: whenever `liquidsoap_mktime` succeeds, the returned
floating-point value is an integral number of seconds (its denominator
as a rational is 1), because it is the binary64 cast of an integer
`time_t`. -/
theorem mktime_ok_result_integral (mk : Tm → Int) (s : LocalTimeSpec)
    (q : ℚ) (h : liquidsoap_mktime mk s = .ok q) : q.den = 1 := by
  unfold liquidsoap_mktime at h
  by_cases hc : mk (mkTm s) = -1
  · simp [hc] at h
  · simp only [hc, if_false] at h
    injection h with h
    rw [← h]
    exact doubleOfInt_den _

/-- Claim C9, witness: the theorem applied on a UTC host to 2000-01-01
00:00:00, which succeeds with value 946684800. -/
theorem mktime_ok_result_integral_witness : (doubleOfInt 946684800).den = 1 :=
  mktime_ok_result_integral mktimeUTC spec2000 (doubleOfInt 946684800)
    (by decide)

/-- Claim C10: `liquidsoap_set_locale` is total and never signals an
error: for every state and every outcome of the platform `setlocale`
call it returns unit, and even when that call fails (leaving the locale
categories unchanged) the environment updates still happen and no error
reaches the caller. -/
theorem set_locale_total_ignores_failure (st : ProcLocaleState) :
    (∀ ok, (liquidsoap_set_locale ok st).2 = ()) ∧
    (liquidsoap_set_locale false st).1.locale = st.locale ∧
    (liquidsoap_set_locale false st).1.getenv "LC_ALL" = some "C" := by
  refine ⟨fun ok => rfl, rfl, ?_⟩
  simp [liquidsoap_set_locale, setenvM, setlocaleAllM]

end UnixC
